import Mathlib

/-!
# Verification of the LLM-rts unit-behavior and physics core

A shallow embedding, over exact rational arithmetic, of the entity,
resource, behavior and collision code in `entities.py`, `behaviors.py`
and `utils.py`, together with theorems settling the specification
claims about it.

Python floats are modelled as `ℚ`; `math.sqrt` and `math.atan2` have no
exact rational counterpart, so the embedded functions take them as
explicit function parameters (`sqrt`, `atan2`).  Concrete theorems
instantiate `sqrt` with `ratSqrt`, which agrees with the real square
root on perfect squares (the only points where the concrete statements
evaluate it).  Python's `UnboundLocalError` path in
`_standardized_move_toward` is modelled with `Except`.
-/

set_option autoImplicit false

namespace RTS

/-- A concrete square-root oracle used to instantiate the abstract
`sqrt` parameter in closed statements.  It agrees with the real square
root on every input the concrete scenarios evaluate it at
(`√0 = 0`, `√4 = 2`, `√9 = 3`). -/
def sqrtTable (q : ℚ) : ℚ :=
  if q = 4 then 2 else if q = 9 then 3 else 0

/-- `utils.normalize`: normalize a vector to unit length; returns `(0, 0)`
when the magnitude is zero. -/
def normalize (sqrt : ℚ → ℚ) (v : ℚ × ℚ) : ℚ × ℚ :=
  let magnitude := sqrt (v.1 ^ 2 + v.2 ^ 2)
  if magnitude = 0 then (0, 0) else (v.1 / magnitude, v.2 / magnitude)

/-- `utils.distance`: Euclidean distance between two points. -/
def dist2 (sqrt : ℚ → ℚ) (p1 p2 : ℚ × ℚ) : ℚ :=
  sqrt ((p1.1 - p2.1) ^ 2 + (p1.2 - p2.2) ^ 2)

/-!
## Resource (`entities.py`, class `Resource`)

Workers are identified by numeric ids (`ℕ`); a slot holds `none` when
empty (Python `None`) or `some w` for the worker occupying it.
-/

/-- State of a `Resource` entity: position, remaining/maximum amount,
current size, the four harvest slots and their precomputed positions. -/
structure Resource where
  position : ℚ × ℚ
  amount : ℤ
  maxAmount : ℤ
  size : ℚ
  slots : List (Option ℕ)
  slotPositions : List (ℚ × ℚ)
  deriving DecidableEq

/-- `Resource._calculate_slot_positions`: the four points on the cardinal
sides of the resource, offset by `size * 0.75`. -/
def calculateSlotPositions (position : ℚ × ℚ) (size : ℚ) : List (ℚ × ℚ) :=
  let slotOffset := size * (3 / 4)
  [ (position.1, position.2 - slotOffset),
    (position.1 + slotOffset, position.2),
    (position.1, position.2 + slotOffset),
    (position.1 - slotOffset, position.2) ]

/-- `Resource.__init__`: amount defaults to 500, size 30, four empty
slots, slot positions precomputed from the initial position and size. -/
def Resource.init (position : ℚ × ℚ) (amount : ℤ) : Resource :=
  { position := position
    amount := amount
    maxAmount := amount
    size := 30
    slots := [none, none, none, none]
    slotPositions := calculateSlotPositions position 30 }

/-- The loop body of `Resource.get_available_slot`: index of the first
empty slot in a slot list, or `none` when every slot is occupied. -/
def firstEmptySlot : List (Option ℕ) → Option ℕ
  | [] => none
  | none :: _ => some 0
  | some _ :: rest => (firstEmptySlot rest).map (· + 1)

/-- `Resource.get_available_slot`. -/
def Resource.get_available_slot (r : Resource) : Option ℕ :=
  firstEmptySlot r.slots

/-- `Resource.assign_worker_to_slot`: writes the worker into the slot
when the index is within `[0, len(slots))`, otherwise does nothing. -/
def Resource.assign_worker_to_slot (r : Resource) (worker : ℕ) (slotIndex : ℤ) : Resource :=
  if 0 ≤ slotIndex ∧ slotIndex < (r.slots.length : ℤ) then
    { r with slots := r.slots.set slotIndex.toNat (some worker) }
  else r

/-- The scan loop of `Resource.release_worker_from_slot`: clears the
first slot equal to the worker and reports whether one was found. -/
def releaseFromSlots (worker : ℕ) : List (Option ℕ) → List (Option ℕ) × Bool
  | [] => ([], false)
  | s :: rest =>
    if s = some worker then (none :: rest, true)
    else
      let res := releaseFromSlots worker rest
      (s :: res.1, res.2)

/-- `Resource.release_worker_from_slot`: scans the slots, clears the
first one holding the worker and returns `true`; returns `false` (and
changes nothing) when the worker holds no slot. -/
def Resource.release_worker_from_slot (r : Resource) (worker : ℕ) : Resource × Bool :=
  let res := releaseFromSlots worker r.slots
  ({ r with slots := res.1 }, res.2)

/-- `Resource.get_slot_position`: the precomputed slot position when the
index is valid, the resource's center position otherwise. -/
def Resource.get_slot_position (r : Resource) (slotIndex : ℤ) : ℚ × ℚ :=
  if h : 0 ≤ slotIndex ∧ slotIndex < (r.slotPositions.length : ℤ) then
    r.slotPositions.get ⟨slotIndex.toNat, by omega⟩
  else r.position

/-- `Resource.extract`: returns 0 when depleted; otherwise extracts
`min(amount, remaining)`, shrinks the size proportionally to the
remaining amount (minimum 15), and returns the extracted amount. -/
def Resource.extract (r : Resource) (amount : ℤ) : Resource × ℤ :=
  if r.amount ≤ 0 then (r, 0)
  else
    let actualAmount := min amount r.amount
    let newAmount := r.amount - actualAmount
    let scaleFactor : ℚ := (newAmount : ℚ) / (r.maxAmount : ℚ)
    ({ r with amount := newAmount, size := max 15 (30 * scaleFactor) }, actualAmount)

/-- Number of occupied harvest slots. -/
def occupiedSlots (r : Resource) : ℕ :=
  r.slots.countP (·.isSome)

/-! Helper lemmas for the slot allocator. -/

theorem firstEmptySlot_spec (l : List (Option ℕ)) (i : ℕ)
    (h : firstEmptySlot l = some i) :
    l.get? i = some none ∧ ∀ j < i, l.get? j ≠ some none := by
  induction l generalizing i with
  | nil => simp [firstEmptySlot] at h
  | cons s rest ih =>
    cases s with
    | none =>
      simp [firstEmptySlot] at h
      subst h
      exact ⟨rfl, fun j hj => absurd hj (Nat.not_lt_zero j)⟩
    | some w =>
      simp only [firstEmptySlot, Option.map_eq_some'] at h
      obtain ⟨i', hi', rfl⟩ := h
      obtain ⟨h1, h2⟩ := ih i' hi'
      refine ⟨h1, ?_⟩
      intro j hj
      cases j with
      | zero => simp
      | succ j' =>
        simpa using h2 j' (by omega)

theorem firstEmptySlot_none_iff (l : List (Option ℕ)) :
    firstEmptySlot l = none ↔ ∀ s ∈ l, s ≠ none := by
  induction l with
  | nil => simp [firstEmptySlot]
  | cons s rest ih =>
    cases s with
    | none => simp [firstEmptySlot]
    | some w => simp [firstEmptySlot, ih]

theorem releaseFromSlots_not_mem (w : ℕ) (l : List (Option ℕ))
    (h : some w ∉ l) : releaseFromSlots w l = (l, false) := by
  induction l with
  | nil => rfl
  | cons s rest ih =>
    simp only [List.mem_cons, not_or] at h
    rw [releaseFromSlots, if_neg (by exact fun hc => h.1 hc.symm), ih h.2]

theorem releaseFromSlots_set (w : ℕ) (l : List (Option ℕ)) (i : ℕ)
    (hw : some w ∉ l) (hi : i < l.length) :
    releaseFromSlots w (l.set i (some w)) = (l.set i none, true) := by
  induction l generalizing i with
  | nil => simp at hi
  | cons s rest ih =>
    simp only [List.mem_cons, not_or] at hw
    cases i with
    | zero => simp [releaseFromSlots]
    | succ i' =>
      rw [List.set_cons_succ, releaseFromSlots,
        if_neg (by exact fun hc => hw.1 hc.symm),
        ih i' hw.2 (by simpa using hi)]
      simp

theorem releaseFromSlots_length (w : ℕ) (l : List (Option ℕ)) :
    (releaseFromSlots w l).1.length = l.length := by
  induction l with
  | nil => rfl
  | cons s rest ih =>
    rw [releaseFromSlots]
    split
    · simp
    · simpa using ih

/-!
## Entity and Unit physics (`entities.py`, classes `Entity` and `Unit`)

`fpow` abstracts Python's `**` (used as `friction ** dt`); `sqrt`
abstracts `math.sqrt`; `atan2` abstracts `math.atan2` (via
`utils.angle_between`, whose result is `atan2(dy, dx)`).
-/

/-- Physical and combat state of a unit (the `Entity` fields plus the
`Unit` fields the claims concern). -/
structure Unit where
  position : ℚ × ℚ
  velocity : ℚ × ℚ
  angle : ℚ
  size : ℚ
  mass : ℚ
  restitution : ℚ
  friction : ℚ
  maxSpeed : ℚ
  isStatic : Bool
  health : ℚ
  maxHealth : ℚ
  attackCooldown : ℚ
  attackCooldownMax : ℚ
  attackDamage : ℚ
  showAttackEffect : Bool
  effectTimer : ℚ
  targetReachedThreshold : ℚ
  steeringForce : ℚ
  deriving DecidableEq

/-- `Entity.update`: clamps `dt` to 50 ms, and for a non-static entity
moving faster than the 0.1 threshold integrates velocity into position,
applies `dt`-scaled friction (strengthened below speed 10) and snaps
tiny velocities to zero. Static entities are untouched. -/
def Unit.entityUpdate (sqrt : ℚ → ℚ) (fpow : ℚ → ℚ → ℚ) (e : Unit) (dt : ℚ) : Unit :=
  let dt := min dt (1 / 20)
  if e.isStatic = false ∧ (1 / 10 < |e.velocity.1| ∨ 1 / 10 < |e.velocity.2|) then
    let px := e.position.1 + e.velocity.1 * dt
    let py := e.position.2 + e.velocity.2 * dt
    let frictionFactor := fpow e.friction dt
    let velMagnitude := sqrt (e.velocity.1 ^ 2 + e.velocity.2 ^ 2)
    let frictionFactor :=
      if velMagnitude < 10 then frictionFactor * max (1 / 2) (velMagnitude / 10)
      else frictionFactor
    let vx := e.velocity.1 * frictionFactor
    let vy := e.velocity.2 * frictionFactor
    let v : ℚ × ℚ := if |vx| < 3 / 10 ∧ |vy| < 3 / 10 then (0, 0) else (vx, vy)
    { e with position := (px, py), velocity := v }
  else e

/-- `Entity.apply_force`: for a non-static entity, adds `F / mass` to the
velocity and rescales it uniformly when the speed exceeds `max_speed`.
Static entities never accept forces. -/
def Unit.apply_force (sqrt : ℚ → ℚ) (e : Unit) (forceX forceY : ℚ) : Unit :=
  if e.isStatic = false then
    let vx := e.velocity.1 + forceX / e.mass
    let vy := e.velocity.2 + forceY / e.mass
    let speed := sqrt (vx ^ 2 + vy ^ 2)
    if e.maxSpeed < speed then
      let ratio := e.maxSpeed / speed
      { e with velocity := (vx * ratio, vy * ratio) }
    else
      { e with velocity := (vx, vy) }
  else e

/-- `Unit.take_damage`: subtracts the amount from health and reports
whether the resulting health is `≤ 0`. -/
def Unit.take_damage (u : Unit) (amount : ℚ) : Unit × Bool :=
  let u' := { u with health := u.health - amount }
  (u', u'.health ≤ 0)

/-- `Unit._apply_melee_damage`: when the attacker's cooldown is ready,
damages the target, resets the cooldown and raises the attack effect. -/
def Unit.applyMeleeDamage (self target : Unit) : Unit × Unit :=
  if self.attackCooldown ≤ 0 then
    ({ self with
        attackCooldown := self.attackCooldownMax
        showAttackEffect := true
        effectTimer := 0 },
      (target.take_damage self.attackDamage).1)
  else (self, target)

/-- The static-entity branch of the per-pair collision response in
`Unit._handle_collisions` (`closeContact` is `is_depositing or
is_attacking_target`): pushes only the moving `self` out, gently on
close contact, otherwise strongly with an opposing velocity. -/
def collideStatic (self other : Unit) (nx ny overlap : ℚ) (closeContact : Bool) :
    Unit × Unit :=
  if closeContact then
    ({ self with position :=
        (self.position.1 + nx * overlap * (1 / 2),
         self.position.2 + ny * overlap * (1 / 2)) }, other)
  else
    let pushForce := overlap * 10
    ({ self with
        position := (self.position.1 + nx * overlap, self.position.2 + ny * overlap)
        velocity := (nx * pushForce, ny * pushForce) }, other)

/-- The dynamic-entity branch of the per-pair collision response in
`Unit._handle_collisions`: positional correction split by mass ratio,
then an elastic impulse exchange gated on approach
(`vel_dot_normal < 0`) and on `not is_attacking_target`; the final
melee-damage conditional is embedded exactly as written in the source
(inside the `not is_attacking_target` branch). -/
def collideDynamic (self other : Unit) (nx ny overlap : ℚ)
    (isDot isAttackingTarget : Bool) : Unit × Unit :=
  let massRatioSelf := self.mass / (self.mass + other.mass)
  let massRatioOther := other.mass / (self.mass + other.mass)
  let self1 := { self with position :=
      (self.position.1 + nx * overlap * (1 - massRatioSelf),
       self.position.2 + ny * overlap * (1 - massRatioSelf)) }
  let other1 :=
    if isAttackingTarget = false ∧ other.isStatic = false then
      { other with position :=
          (other.position.1 - nx * overlap * (1 - massRatioOther),
           other.position.2 - ny * overlap * (1 - massRatioOther)) }
    else other
  if isAttackingTarget = false then
    let vx := self1.velocity.1 - other1.velocity.1
    let vy := self1.velocity.2 - other1.velocity.2
    let velDotNormal := vx * nx + vy * ny
    if velDotNormal < 0 then
      let impulse := (-(1 + self.restitution) * velDotNormal) /
        (1 / self.mass + 1 / other.mass)
      let self2 := { self1 with velocity :=
          (self1.velocity.1 + impulse * nx / self.mass,
           self1.velocity.2 + impulse * ny / self.mass) }
      if other1.isStatic = false then
        let other2 := { other1 with velocity :=
            (other1.velocity.1 - impulse * nx / other.mass,
             other1.velocity.2 - impulse * ny / other.mass) }
        if isDot && isAttackingTarget && decide (self2.attackCooldown ≤ 0) then
          let res := Unit.applyMeleeDamage self2 other2
          (res.1, res.2)
        else (self2, other2)
      else (self2, other1)
    else (self1, other1)
  else (self1, other1)

/-- The per-pair body of `Unit._handle_collisions`: `self` is the unit
running the loop, `other` one other entity.  `isDot` embeds
`isinstance(self, Dot)`, `targetsOther` embeds "`self.current_behavior`
is an `AttackBehavior` whose target is `other`", and `isDepositing`
embeds the resource-returning special case.  Returns the updated pair
`(self, other)`. -/
def handleCollisionPair (sqrt : ℚ → ℚ) (self other : Unit)
    (isDot targetsOther isDepositing : Bool) : Unit × Unit :=
  let dx := self.position.1 - other.position.1
  let dy := self.position.2 - other.position.2
  let d := sqrt (dx * dx + dy * dy)
  let minDist0 := (self.size + other.size) / 2
  let minDist := if isDepositing then minDist0 * (1 / 2) else minDist0
  if d < minDist ∧ 0 < d then
    let overlap := minDist - d
    let nx := dx / d
    let ny := dy / d
    let isAttackingTarget := targetsOther && isDot
    if other.isStatic then
      collideStatic self other nx ny overlap (isDepositing || isAttackingTarget)
    else
      collideDynamic self other nx ny overlap isDot isAttackingTarget
  else (self, other)

/-!
## Shared steering helper (`behaviors.py`, `Behavior._standardized_move_toward`)

Python assigns the local `arrival_threshold` only inside the
`if dist > 0:` branch yet reads it in the final `return` statement, so
a zero-length direction vector raises `UnboundLocalError`; that path is
modelled with `Except.error`.  The `dt` parameter is accepted and, as in
the source, never used.
-/

/-- `Behavior._standardized_move_toward`: steers the unit toward the
target with a deceleration ramp, updates its facing angle, and returns
the updated unit with the arrival flag `dist <= arrival_threshold`; on a
zero-length direction vector the read of the conditionally-assigned
local fails. -/
def standardizedMoveToward (sqrt : ℚ → ℚ) (atan2 : ℚ → ℚ → ℚ) (u : Unit)
    (targetPosition : ℚ × ℚ) (dt : ℚ) (forceScale : Option ℚ) :
    Except String (Unit × Bool) :=
  let fs := forceScale.getD u.steeringForce
  let dx := targetPosition.1 - u.position.1
  let dy := targetPosition.2 - u.position.2
  let d := sqrt (dx * dx + dy * dy)
  if 0 < d then
    let dirX := dx / d
    let dirY := dy / d
    let arrivalThreshold := u.targetReachedThreshold
    let decelerationRadius : ℚ := 150
    let decelFactor : ℚ :=
      if d < decelerationRadius then
        max (3 / 10) (min 1
          (3 / 10 + (7 / 10) * (d - arrivalThreshold) /
            (decelerationRadius - arrivalThreshold)))
      else 1
    let forceIntensity := fs * decelFactor
    let u1 := u.apply_force sqrt (dirX * forceIntensity) (dirY * forceIntensity)
    let u2 :=
      if 1 < |u1.velocity.1| ∨ 1 < |u1.velocity.2| then
        { u1 with angle := atan2 u1.velocity.2 u1.velocity.1 }
      else
        { u1 with angle := atan2 dy dx }
    .ok (u2, decide (d ≤ arrivalThreshold))
  else
    .error "UnboundLocalError: arrival_threshold"

/-!
## MoveBehavior (`behaviors.py`, class `MoveBehavior`)
-/

/-- State of a `MoveBehavior`: the target position (`None` possible),
whether a completion callback was supplied, and the arrival threshold
copied from the unit at construction. -/
structure MoveBehavior where
  targetPosition : Option (ℚ × ℚ)
  hasCallback : Bool
  arrivalThreshold : ℚ
  deriving DecidableEq

/-- `MoveBehavior.__init__`: stores the target and copies the unit's
`target_reached_threshold` as the behavior's arrival threshold. -/
def MoveBehavior.init (u : Unit) (targetPosition : ℚ × ℚ) (hasCallback : Bool) :
    MoveBehavior :=
  { targetPosition := some targetPosition
    hasCallback := hasCallback
    arrivalThreshold := u.targetReachedThreshold }

/-- `MoveBehavior.update`: returns `(unit', finished, callbackInvoked)`.
Finishes immediately on a missing target (without invoking the
callback); otherwise runs the shared steering helper and, when arrived,
invokes the callback (when present) and reports completion. -/
def MoveBehavior.update (sqrt : ℚ → ℚ) (atan2 : ℚ → ℚ → ℚ) (u : Unit)
    (mb : MoveBehavior) (dt : ℚ) : Except String (Unit × Bool × Bool) :=
  match mb.targetPosition with
  | none => .ok (u, true, false)
  | some t =>
    match standardizedMoveToward sqrt atan2 u t dt none with
    | .error e => .error e
    | .ok (u1, arrived) =>
      if arrived then .ok (u1, true, mb.hasCallback) else .ok (u1, false, false)

/-- `MoveBehavior.is_finished`: true when the target is missing, or when
the unit is within half the arrival threshold and nearly stopped. Reads
state only. -/
def MoveBehavior.is_finished (sqrt : ℚ → ℚ) (u : Unit) (mb : MoveBehavior) : Bool :=
  match mb.targetPosition with
  | none => true
  | some t =>
    let d := dist2 sqrt u.position t
    decide (d < mb.arrivalThreshold * (1 / 2)) &&
      (decide (|u.velocity.1| < 2) && decide (|u.velocity.2| < 2))

/-!
## Command dispatch and behavior replacement (`entities.py`,
`Unit.move_to` etc.; `behaviors.py`, `GatherBehavior.exit`)

`Unit.move_to` (and the other command methods `gather`, `attack`,
`attack_move`, `hold_position`, `patrol`) consist of the single
assignment `self.current_behavior = <NewBehavior>(...)`: the replaced
behavior's `exit()` is not called and nothing else in the world is
touched.  The command layer is embedded over a unit's behavior slot
paired with the resource a `GatherBehavior` references, so that the
effect (or absence of effect) on the resource's harvest slots is
explicit.
-/

/-- Phases of the `GatherBehavior` state machine. -/
inductive GatherPhase where
  | movingToResource
  | gathering
  | returning
  | depositing
  deriving DecidableEq

/-- The current behavior held by a unit (the state the claims need). -/
inductive BehaviorSlot where
  | idle
  | move (targetPosition : ℚ × ℚ)
  | gatherRes (slotIndex : ℤ) (phase : GatherPhase)
  | attackTarget (targetId : ℕ)
  | holdPosition (holdPos : ℚ × ℚ)
  | attackMove (targetPosition : ℚ × ℚ)
  | patrol (startPosition endPosition : ℚ × ℚ)
  deriving DecidableEq

/-- A unit as seen by the command layer: its id (used as the worker
reference stored in harvest slots) and its current behavior. -/
structure UnitCmd where
  id : ℕ
  behavior : BehaviorSlot
  deriving DecidableEq

/-- `Unit.move_to`: the whole method body is
`self.current_behavior = MoveBehavior(self, position)`. -/
def UnitCmd.move_to (u : UnitCmd) (position : ℚ × ℚ) : UnitCmd :=
  { u with behavior := .move position }

/-- `Unit.move_to` as an operation on the unit together with the
resource its previous behavior references: the source method assigns
`current_behavior` and touches nothing else, so the resource passes
through unchanged. -/
def moveToCommand (u : UnitCmd) (r : Resource) (position : ℚ × ℚ) :
    UnitCmd × Resource :=
  (u.move_to position, r)

/-- `GatherBehavior.exit`: when the behavior references a resource and
holds a slot (`slot_index != -1`), releases the worker from its slot. -/
def gatherExitCleanup (worker : ℕ) (slotIndex : ℤ) (r : Resource) : Resource :=
  if slotIndex ≠ -1 then (r.release_worker_from_slot worker).1 else r

/-- `Unit.__init__` (with the `Entity.__init__` defaults it inherits):
velocity zero, mass `size * size`, restitution 0.5, friction 0.9,
max speed `speed * 1.5`, steering force `speed * 0.5`, arrival
threshold 25, health starting at `max_health`, zeroed attack stats. -/
def mkUnit (position : ℚ × ℚ) (size maxHealth speed : ℚ) : Unit :=
  { position := position
    velocity := (0, 0)
    angle := 0
    size := size
    mass := size * size
    restitution := 1 / 2
    friction := 9 / 10
    maxSpeed := speed * (3 / 2)
    isStatic := false
    health := maxHealth
    maxHealth := maxHealth
    attackCooldown := 0
    attackCooldownMax := 0
    attackDamage := 0
    showAttackEffect := false
    effectTimer := 0
    targetReachedThreshold := 25
    steeringForce := speed * (1 / 2) }

/-!
## Claim theorems
-/

/-- C7: for every unit and every damage amount `d`, `take_damage(d)`
decreases health by exactly `d` and returns `true` if and only if the
resulting health is `≤ 0`. -/
theorem take_damage_exact_and_destroyed_iff (u : Unit) (d : ℚ) :
    (u.take_damage d).1.health = u.health - d ∧
    ((u.take_damage d).2 = true ↔ (u.take_damage d).1.health ≤ 0) := by
  refine ⟨rfl, ?_⟩
  simp [Unit.take_damage]

/-- C4: for every resource with a nonnegative remaining amount and every
nonnegative requested amount, `extract` returns `min(amount, remaining)`,
the remaining amount decreases by exactly the returned value and never
becomes negative, and extracting from a depleted resource returns 0 and
leaves the remaining amount at 0. -/
theorem extract_returns_min_and_never_negative (r : Resource) (a : ℤ)
    (ha : 0 ≤ a) (hr : 0 ≤ r.amount) :
    (r.extract a).2 = min a r.amount ∧
    (r.extract a).1.amount = r.amount - (r.extract a).2 ∧
    0 ≤ (r.extract a).1.amount ∧
    (r.amount = 0 → (r.extract a).2 = 0 ∧ (r.extract a).1.amount = 0) := by
  unfold Resource.extract
  split
  · next h =>
    have hz : r.amount = 0 := le_antisymm h hr
    refine ⟨?_, ?_, hr, fun _ => ⟨rfl, hz⟩⟩
    · simp [hz, ha]
    · simp
  · next h =>
    refine ⟨rfl, rfl, ?_, fun hz => absurd hz (by omega)⟩
    simp only [sub_nonneg]
    exact min_le_right a r.amount

/-- Witness for C4 at a concrete resource of amount 100 and request 30. -/
theorem extract_returns_min_witness :
    (0 : ℤ) ≤ 30 ∧ 0 ≤ (Resource.init (0, 0) 100).amount ∧
    ((Resource.init (0, 0) 100).extract 30).2 = min 30 (Resource.init (0, 0) 100).amount :=
  ⟨by decide, by decide,
    (extract_returns_min_and_never_negative (Resource.init (0, 0) 100) 30
      (by decide) (by decide)).1⟩

/-- C10: an out-of-range slot index is absorbed at the allocator's
interface: `assign_worker_to_slot` with an index outside `[0, 4)` leaves
the resource unchanged, and `get_slot_position` with an invalid index
returns the resource's center position. -/
theorem invalid_slot_index_is_absorbed (r : Resource) (w : ℕ) (i : ℤ)
    (hlen : r.slots.length = 4) (hplen : r.slotPositions.length = 4)
    (hi : i < 0 ∨ 4 ≤ i) :
    r.assign_worker_to_slot w i = r ∧ r.get_slot_position i = r.position := by
  constructor
  · unfold Resource.assign_worker_to_slot
    rw [if_neg]
    omega
  · unfold Resource.get_slot_position
    rw [dif_neg]
    omega

/-- Witness for C10: assigning to slot 7 of a fresh resource is a no-op
and its slot position falls back to the center. -/
theorem invalid_slot_index_witness :
    (Resource.init (0, 0) 500).slots.length = 4 ∧
    ((7 : ℤ) < 0 ∨ 4 ≤ (7 : ℤ)) ∧
    (Resource.init (0, 0) 500).assign_worker_to_slot 3 7 = Resource.init (0, 0) 500 :=
  ⟨by decide, by decide,
    (invalid_slot_index_is_absorbed (Resource.init (0, 0) 500) 3 7
      (by decide) (by decide) (by decide)).1⟩

/-- A concrete worker unit built by the `Unit` constructor (size 15,
50 max health, speed 100), used as counterexample input. -/
def workerUnit : Unit := mkUnit (0, 0) 15 50 100

/-- C8 counterexample: `take_damage(60)` on a full-health unit with
`max_health = 50` drives health to `-10 < 0`, so health does not stay
within `[0, max_health]`. -/
theorem take_damage_below_zero_counterexample :
    (workerUnit.take_damage 60).1.health = -10 ∧
    (workerUnit.take_damage 60).1.health < 0 := by
  constructor <;> norm_num [workerUnit, mkUnit, Unit.take_damage]

/-- C8 amended: the upper bound holds — `take_damage` with a
nonnegative amount never raises health, so health stays `≤ max_health` —
but the lower bound does not: health may go below 0, in which case the
destroyed flag is reported. -/
theorem take_damage_keeps_upper_bound (u : Unit) (d : ℚ)
    (hd : 0 ≤ d) (hu : u.health ≤ u.maxHealth) :
    (u.take_damage d).1.health ≤ u.maxHealth ∧
    ((u.take_damage d).1.health ≤ 0 → (u.take_damage d).2 = true) := by
  constructor
  · simp only [Unit.take_damage]
    linarith
  · intro h
    simpa [Unit.take_damage] using h

/-- Witness for C8's amended claim on the concrete worker unit. -/
theorem take_damage_keeps_upper_bound_witness :
    (0 : ℚ) ≤ 60 ∧ workerUnit.health ≤ workerUnit.maxHealth ∧
    (workerUnit.take_damage 60).1.health ≤ workerUnit.maxHealth :=
  ⟨by norm_num, by norm_num [workerUnit, mkUnit],
    (take_damage_keeps_upper_bound workerUnit 60 (by norm_num)
      (by norm_num [workerUnit, mkUnit])).1⟩

/-- C5: the harvest slot allocator — `get_available_slot` returns the
lowest-index empty slot and returns none exactly when all slots are
occupied; `assign_worker_to_slot` followed by `release_worker_from_slot`
on a worker holding no other slot empties the assigned slot with release
returning `true`; release on a worker holding no slot returns `false`
and changes nothing; and the occupied-slot count never exceeds the
configured slot count 4 (assignment and release preserve it). -/
theorem slot_allocator_laws (r : Resource) (w : ℕ) (i : ℤ)
    (hw : some w ∉ r.slots) (hi0 : 0 ≤ i) (hi4 : i < (r.slots.length : ℤ))
    (hlen : r.slots.length = 4) :
    (∀ j, r.get_available_slot = some j →
        r.slots.get? j = some none ∧ ∀ k < j, r.slots.get? k ≠ some none) ∧
    (r.get_available_slot = none ↔ ∀ s ∈ r.slots, s ≠ none) ∧
    ((r.assign_worker_to_slot w i).release_worker_from_slot w =
        ({ r with slots := r.slots.set i.toNat none }, true)) ∧
    r.release_worker_from_slot w = (r, false) ∧
    occupiedSlots r ≤ 4 ∧
    (r.assign_worker_to_slot w i).slots.length = 4 ∧
    ((r.release_worker_from_slot w).1).slots.length = 4 := by
  have hassign : r.assign_worker_to_slot w i =
      { r with slots := r.slots.set i.toNat (some w) } := by
    unfold Resource.assign_worker_to_slot
    rw [if_pos ⟨hi0, hi4⟩]
  refine ⟨fun j h => firstEmptySlot_spec r.slots j h,
    firstEmptySlot_none_iff r.slots, ?_, ?_, ?_, ?_, ?_⟩
  · rw [hassign]
    unfold Resource.release_worker_from_slot
    rw [releaseFromSlots_set w r.slots i.toNat hw (by omega)]
  · unfold Resource.release_worker_from_slot
    rw [releaseFromSlots_not_mem w r.slots hw]
  · exact le_of_le_of_eq (List.countP_le_length _) hlen
  · rw [hassign]
    simpa using hlen
  · unfold Resource.release_worker_from_slot
    rw [releaseFromSlots_length]
    exact hlen

/-- Witness for C5 on a fresh resource (all slots empty), worker 5,
slot index 2. -/
theorem slot_allocator_laws_witness :
    some 5 ∉ (Resource.init (0, 0) 500).slots ∧
    ((Resource.init (0, 0) 500).assign_worker_to_slot 5 2).release_worker_from_slot 5 =
      ({ Resource.init (0, 0) 500 with
          slots := (Resource.init (0, 0) 500).slots.set 2 none }, true) :=
  ⟨by decide,
    (slot_allocator_laws (Resource.init (0, 0) 500) 5 2
      (by decide) (by decide) (by decide) (by decide)).2.2.1⟩

/-- In the static-entity collision branch the other (static) entity is
returned untouched and only the mover's position/velocity change. -/
theorem collideStatic_fields (self other : Unit) (nx ny overlap : ℚ) (c : Bool) :
    (collideStatic self other nx ny overlap c).2 = other ∧
    (collideStatic self other nx ny overlap c).1.attackCooldown = self.attackCooldown ∧
    (collideStatic self other nx ny overlap c).1.health = self.health := by
  unfold collideStatic
  split <;> exact ⟨rfl, rfl, rfl⟩

/-- In the dynamic-entity collision branch the melee-damage conditional
is unreachable (it requires `is_attacking_target` both true and false),
so neither the other entity's health nor the attacker's cooldown ever
changes. -/
theorem collideDynamic_no_damage (self other : Unit) (nx ny overlap : ℚ)
    (isDot isAttackingTarget : Bool) :
    (collideDynamic self other nx ny overlap isDot isAttackingTarget).2.health
      = other.health ∧
    (collideDynamic self other nx ny overlap isDot isAttackingTarget).1.attackCooldown
      = self.attackCooldown := by
  unfold collideDynamic
  dsimp only
  split_ifs <;> simp_all [Unit.applyMeleeDamage, Unit.take_damage]

/-- C6: a static entity is left unchanged by every core operation —
`Entity.update` integration, `apply_force`, and collision resolution
against any unit (the static entity being the `other` of the pair). -/
theorem static_entity_never_moves (sqrt : ℚ → ℚ) (fpow : ℚ → ℚ → ℚ)
    (e self other : Unit) (dt fx fy : ℚ)
    (isDot targetsOther isDepositing : Bool)
    (he : e.isStatic = true) (ho : other.isStatic = true) :
    e.entityUpdate sqrt fpow dt = e ∧
    e.apply_force sqrt fx fy = e ∧
    (handleCollisionPair sqrt self other isDot targetsOther isDepositing).2 = other := by
  refine ⟨?_, ?_, ?_⟩
  · unfold Unit.entityUpdate
    rw [if_neg]
    simp [he]
  · unfold Unit.apply_force
    rw [if_neg]
    simp [he]
  · unfold handleCollisionPair
    dsimp only
    split_ifs <;> first
      | rfl
      | exact (collideStatic_fields _ _ _ _ _ _).1

/-- Witness for C6: a concrete static entity (a resource-like body at
rest) is unchanged by an update step, a force, and a collision. -/
def staticBody : Unit :=
  { mkUnit (100, 100) 30 1 0 with isStatic := true }

theorem static_entity_never_moves_witness :
    staticBody.isStatic = true ∧
    staticBody.entityUpdate sqrtTable (fun _ _ => 1) 1 = staticBody ∧
    (handleCollisionPair sqrtTable workerUnit staticBody false false false).2 = staticBody :=
  ⟨rfl,
    (static_entity_never_moves sqrtTable (fun _ _ => 1) staticBody workerUnit staticBody
      1 0 0 false false false rfl rfl).1,
    (static_entity_never_moves sqrtTable (fun _ _ => 1) staticBody workerUnit staticBody
      1 0 0 false false false rfl rfl).2.2⟩

/-- C2 (code evaluation): in per-pair collision resolution the elastic
impulse is exchanged only when the pair is approaching, and when the
other entity is the unit's melee attack target the momentum exchange is
skipped — but, contrary to the claim, no melee damage is ever applied
there: the damage call sits inside the `not is_attacking_target` branch,
so for every input the other entity's health and the attacker's cooldown
are unchanged by `_handle_collisions`. -/
theorem collision_never_applies_melee_damage (sqrt : ℚ → ℚ)
    (self other : Unit) (isDot targetsOther isDepositing : Bool) :
    (handleCollisionPair sqrt self other isDot targetsOther isDepositing).2.health
      = other.health ∧
    (handleCollisionPair sqrt self other isDot targetsOther isDepositing).1.attackCooldown
      = self.attackCooldown := by
  unfold handleCollisionPair
  dsimp only
  split_ifs
  all_goals first
    | exact ⟨rfl, rfl⟩
    | exact ⟨by rw [(collideStatic_fields _ _ _ _ _ _).1],
        (collideStatic_fields _ _ _ _ _ _).2.1⟩
    | exact collideDynamic_no_damage _ _ _ _ _ _ _

/-- A resource whose slot 0 is held by worker 7 (the state after the
gather behavior registered the worker via `assign_worker_to_slot`). -/
def gatherResource : Resource :=
  (Resource.init (300, 300) 500).assign_worker_to_slot 7 0

/-- Worker 7 while its `GatherBehavior` holds slot 0. -/
def gatheringWorker : UnitCmd :=
  { id := 7, behavior := .gatherRes 0 GatherPhase.movingToResource }

/-- C1 (code evaluation): issuing `move_to` to a worker whose
`GatherBehavior` holds harvest slot 0 installs the new behavior without
running the replaced behavior's `exit()` — the slot still holds the
worker afterwards, although `GatherBehavior.exit` (had it been called)
would have released it. -/
theorem move_to_leaks_harvest_slot :
    (moveToCommand gatheringWorker gatherResource (0, 0)).1.behavior
      = BehaviorSlot.move (0, 0) ∧
    (moveToCommand gatheringWorker gatherResource (0, 0)).2.slots
      = [some 7, none, none, none] ∧
    (gatherExitCleanup gatheringWorker.id 0 gatherResource).slots
      = [none, none, none, none] := by
  refine ⟨rfl, by decide, by decide⟩

/-- C3 (code evaluation): when the unit's position coincides with its
target, the shared steering helper does not fall back to a default unit
direction — the read of the conditionally-assigned local
`arrival_threshold` fails (Python `UnboundLocalError`) — and `normalize`
on the zero vector returns `(0, 0)`, the zero vector rather than a unit
direction. -/
theorem coincident_target_steering_fails :
    standardizedMoveToward sqrtTable (fun _ _ => 0) workerUnit workerUnit.position
      (1 / 60) none = .error "UnboundLocalError: arrival_threshold" ∧
    normalize sqrtTable (0, 0) = (0, 0) := by
  constructor
  · simp only [standardizedMoveToward, workerUnit, mkUnit, sqrtTable]
    norm_num
  · simp only [normalize, sqrtTable]
    norm_num

/-- The distance computed inside `_standardized_move_toward`
(`sqrt(dx*dx + dy*dy)` toward the target). -/
def steerDist (sqrt : ℚ → ℚ) (u : Unit) (t : ℚ × ℚ) : ℚ :=
  sqrt ((t.1 - u.position.1) * (t.1 - u.position.1) +
    (t.2 - u.position.2) * (t.2 - u.position.2))

/-- The move order used as the C9 counterexample: the worker sent to
`(2, 0)` with a completion callback; the arrival threshold copied from
the unit is 25. -/
def moveCmd : MoveBehavior := MoveBehavior.init workerUnit (2, 0) true

/-- The C9 counterexample unit: the worker at the origin, still moving
at velocity `(44/15, 0)` as it comes within the arrival threshold of
the target. -/
def movingWorker : Unit := { workerUnit with velocity := (44 / 15, 0) }

/-- The unit state produced by the completing `update` call of the C9
counterexample: the steering force accelerates the worker to velocity
`(3, 0)` (distance 2 from the target, threshold 25, deceleration floor
0.3, force 15, mass 225). -/
def workerAfterMove : Unit := { movingWorker with velocity := (3, 0), angle := 0 }

theorem moveUpdate_concrete_eval :
    MoveBehavior.update sqrtTable (fun _ _ => 0) movingWorker moveCmd (1 / 60)
      = .ok (workerAfterMove, true, true) := by
  simp only [MoveBehavior.update, moveCmd, MoveBehavior.init, standardizedMoveToward,
    Unit.apply_force, Option.getD, movingWorker, workerAfterMove, workerUnit, mkUnit,
    sqrtTable]
  norm_num [min_def, max_def]

theorem moveIsFinished_concrete_eval :
    MoveBehavior.is_finished sqrtTable workerAfterMove moveCmd = false := by
  simp only [MoveBehavior.is_finished, moveCmd, MoveBehavior.init, dist2,
    workerAfterMove, movingWorker, workerUnit, mkUnit, sqrtTable]
  norm_num

/-- C9 counterexample: the worker arrives within the arrival threshold
(distance 2 ≤ 25) still moving at speed 3, so `update` returns true
(finished, callback invoked) while `is_finished()` on the resulting
state reports false (it also demands near-zero velocity) —
`is_finished` does not mirror the completion signal of the last
`update`. -/
theorem move_finished_mismatch_counterexample :
    MoveBehavior.update sqrtTable (fun _ _ => 0) movingWorker moveCmd (1 / 60)
      = .ok (workerAfterMove, true, true) ∧
    MoveBehavior.is_finished sqrtTable workerAfterMove moveCmd = false :=
  ⟨moveUpdate_concrete_eval, moveIsFinished_concrete_eval⟩

/-- C9 amended: `update(dt)` completes exactly when the steering
distance is within the unit's arrival threshold, invoking the callback
(when present) precisely on a completing call; `is_finished()` is a
non-mutating predicate strictly stronger than the completion signal —
whenever it reports true the unit is within the arrival threshold — but
an `update` that returned true need not make `is_finished()` true. -/
theorem move_update_completion_and_stricter_finished
    (sqrt : ℚ → ℚ) (atan2 : ℚ → ℚ → ℚ) (u u' : Unit) (mb : MoveBehavior)
    (t : ℚ × ℚ) (dt : ℚ) (fin cb : Bool)
    (ht : mb.targetPosition = some t)
    (h0 : 0 ≤ mb.arrivalThreshold)
    (hd : 0 < steerDist sqrt u t)
    (hupd : MoveBehavior.update sqrt atan2 u mb dt = .ok (u', fin, cb)) :
    (fin = true ↔ steerDist sqrt u t ≤ u.targetReachedThreshold) ∧
    cb = (mb.hasCallback && fin) ∧
    (MoveBehavior.is_finished sqrt u mb = true →
      dist2 sqrt u.position t ≤ mb.arrivalThreshold) := by
  unfold steerDist at hd ⊢
  have hfinished : MoveBehavior.is_finished sqrt u mb = true →
      dist2 sqrt u.position t ≤ mb.arrivalThreshold := by
    intro hfin
    simp only [MoveBehavior.is_finished, ht, Bool.and_eq_true, decide_eq_true_eq] at hfin
    linarith [hfin.1]
  simp only [MoveBehavior.update, ht, standardizedMoveToward] at hupd
  rw [if_pos hd] at hupd
  by_cases hle : sqrt ((t.1 - u.position.1) * (t.1 - u.position.1) +
      (t.2 - u.position.2) * (t.2 - u.position.2)) ≤ u.targetReachedThreshold
  · rw [decide_eq_true hle] at hupd
    simp only [eq_self_iff_true, if_true] at hupd
    have h := Except.ok.inj hupd
    have hfin : fin = true := by
      have h2 := congrArg (fun r => r.2.1) h
      simpa using h2.symm
    have hcb : cb = mb.hasCallback := by
      have h2 := congrArg (fun r => r.2.2) h
      simpa using h2.symm
    refine ⟨?_, ?_, hfinished⟩
    · rw [hfin]
      exact iff_of_true rfl hle
    · rw [hcb, hfin, Bool.and_true]
  · rw [decide_eq_false hle] at hupd
    simp only [Bool.false_eq_true, if_false] at hupd
    have h := Except.ok.inj hupd
    have hfin : fin = false := by
      have h2 := congrArg (fun r => r.2.1) h
      simpa using h2.symm
    have hcb : cb = false := by
      have h2 := congrArg (fun r => r.2.2) h
      simpa using h2.symm
    refine ⟨?_, ?_, hfinished⟩
    · rw [hfin]
      exact iff_of_false (by simp) hle
    · rw [hcb, hfin, Bool.and_false]

/-- Witness for C9's amended claim at the concrete counterexample
state: the completing update (distance 20, threshold 25) indeed
satisfies the characterization. -/
theorem move_update_completion_witness :
    moveCmd.targetPosition = some (2, 0) ∧
    (0 : ℚ) ≤ moveCmd.arrivalThreshold ∧
    0 < steerDist sqrtTable movingWorker (2, 0) ∧
    (true = true ↔
      steerDist sqrtTable movingWorker (2, 0) ≤ movingWorker.targetReachedThreshold) :=
  ⟨rfl, by norm_num [moveCmd, MoveBehavior.init, workerUnit, mkUnit],
    by norm_num [steerDist, sqrtTable, movingWorker, workerUnit, mkUnit],
    (move_update_completion_and_stricter_finished sqrtTable (fun _ _ => 0)
      movingWorker workerAfterMove moveCmd (2, 0) (1 / 60) true true
      rfl (by norm_num [moveCmd, MoveBehavior.init, workerUnit, mkUnit])
      (by norm_num [steerDist, sqrtTable, movingWorker, workerUnit, mkUnit])
      moveUpdate_concrete_eval).1⟩

end RTS
